import Mathlib

/-!
Verification of the Harvia Sauna integration's state-reconciliation layer and
websocket session behaviour, shallowly embedded from
`custom_components/harvia_sauna/coordinator.py`,
`custom_components/harvia_sauna/websocket.py` and
`custom_components/harvia_sauna/const.py`.

Modelling conventions:
* Python `float` values (monotonic clock readings, `energy_kwh`) are modelled
  as exact rationals `ℚ`; each call of `time.monotonic()` is passed in as an
  explicit argument `now`.
* A Python dict delta is modelled as a structure of `Option` fields: a field
  is `some v` exactly when the corresponding key is present in the dict.
  Boolean-valued keys are modelled as `Bool` (the `bool(...)` coercion of the
  source is then the identity); integer-valued keys as `Int`.
  The `statusCodes` value is modelled after the source's `str(...)`
  conversion, i.e. as the string the source derives from it.
* The source mutates distinct attributes of the device object in sequence;
  here each update function returns the whole updated record as a single
  simultaneous record update, which is equivalent because every attribute is
  written at most once and the only cross-reads (`was_heating` and
  `_last_heat_on_timestamp` in the energy block) are reads of pre-update
  values, made explicit below.
-/

/-- The dataclass `HarviaDeviceData` of coordinator.py, with its defaults. -/
@[ext]
structure HarviaDeviceData where
  device_id : String := ""
  display_name : String := "Harvia Sauna"
  -- State
  active : Bool := false
  lights_on : Bool := false
  fan_on : Bool := false
  steam_on : Bool := false
  steam_enabled : Bool := false
  aroma_enabled : Bool := false
  aroma_level : Int := 0
  auto_light : Bool := false
  auto_fan : Bool := false
  dehumidifier_enabled : Bool := false
  -- Temperatures
  target_temp : Option Int := none
  current_temp : Option Int := none
  target_rh : Int := 0
  humidity : Int := 0
  temp_unit : Int := 0
  -- Timers
  heat_up_time : Int := 0
  remaining_time : Int := 0
  on_time : Int := 360
  -- Status
  status_codes : Option String := none
  door_open : Bool := false
  heat_on : Bool := false
  -- Telemetry
  wifi_rssi : Option Int := none
  timestamp : Option String := none
  -- Relay counters
  ph1_relay_counter : Int := 0
  ph2_relay_counter : Int := 0
  ph3_relay_counter : Int := 0
  ph1_relay_counter_lt : Int := 0
  ph2_relay_counter_lt : Int := 0
  ph3_relay_counter_lt : Int := 0
  -- Steam counters
  steam_on_counter : Int := 0
  steam_on_counter_lt : Int := 0
  heat_on_counter : Int := 0
  heat_on_counter_lt : Int := 0
  -- Power / Energy (calculated)
  heater_power : Int := 10800
  energy_kwh : ℚ := 0
  _last_heat_on_timestamp : Option ℚ := none
deriving DecidableEq

/-- The dataclass `HarviaSaunaData`: the device dict is modelled as an
association list keyed by device identifier. -/
structure HarviaSaunaData where
  devices : List (String × HarviaDeviceData) := []
  available : Bool := true
deriving DecidableEq

/-- The keys read by `_apply_state_data` (a push "reported" state body or a
REST state snapshot); `some` means the key is present in the dict. -/
structure StateDelta where
  displayName : Option String := none
  deviceId : Option String := none
  active : Option Bool := none
  light : Option Bool := none
  fan : Option Bool := none
  steamEn : Option Bool := none
  targetTemp : Option Int := none
  targetRh : Option Int := none
  heatUpTime : Option Int := none
  onTime : Option Int := none
  dehumEn : Option Bool := none
  autoLight : Option Bool := none
  autoFan : Option Bool := none
  tempUnit : Option Int := none
  aromaEn : Option Bool := none
  aromaLevel : Option Int := none
  statusCodes : Option String := none
deriving DecidableEq

/-- The keys read by `_apply_telemetry_data`.  The `timestamp` key can be
present with a `None` value (the websocket path always sets it, possibly to
`None`), hence `Option (Option String)`. -/
structure TelemetryDelta where
  temperature : Option Int := none
  humidity : Option Int := none
  heatOn : Option Bool := none
  steamOn : Option Bool := none
  remainingTime : Option Int := none
  targetTemp : Option Int := none
  wifiRSSI : Option Int := none
  timestamp : Option (Option String) := none
  ph1RelayCounter : Option Int := none
  ph2RelayCounter : Option Int := none
  ph3RelayCounter : Option Int := none
  ph1RelayCounterLT : Option Int := none
  ph2RelayCounterLT : Option Int := none
  ph3RelayCounterLT : Option Int := none
  steamOnCounter : Option Int := none
  steamOnCounterLT : Option Int := none
  heatOnCounter : Option Int := none
  heatOnCounterLT : Option Int := none
deriving DecidableEq

/-- The door-open parse of `_apply_state_data`:
`device.door_open = int(str(data["statusCodes"])[1]) == 9` guarded by
`except (IndexError, ValueError): pass`.  `s.data.get? 1` is Python `s[1]`
(IndexError when absent); a character converts via `int` exactly when it is a
decimal digit (ValueError otherwise), and its value equals 9 exactly for
`'9'`. -/
def doorOpenUpdate (s : String) (prev : Bool) : Bool :=
  match s.data.get? 1 with
  | none => prev
  | some c => if c.isDigit then (c.toNat - Char.toNat '0') == 9 else prev

/-- `_apply_state_data(device, data)` of coordinator.py.  Each `if key in
data` assignment becomes one field of a simultaneous record update. -/
def _apply_state_data (device : HarviaDeviceData) (data : StateDelta) :
    HarviaDeviceData :=
  { device with
    display_name := data.displayName.getD device.display_name
    device_id := data.deviceId.getD device.device_id
    active := data.active.getD device.active
    lights_on := data.light.getD device.lights_on
    fan_on := data.fan.getD device.fan_on
    steam_enabled := data.steamEn.getD device.steam_enabled
    target_temp := match data.targetTemp with
      | some v => some v
      | none => device.target_temp
    target_rh := data.targetRh.getD device.target_rh
    heat_up_time := data.heatUpTime.getD device.heat_up_time
    on_time := data.onTime.getD device.on_time
    dehumidifier_enabled := data.dehumEn.getD device.dehumidifier_enabled
    auto_light := data.autoLight.getD device.auto_light
    auto_fan := data.autoFan.getD device.auto_fan
    temp_unit := data.tempUnit.getD device.temp_unit
    aroma_enabled := data.aromaEn.getD device.aroma_enabled
    aroma_level := data.aromaLevel.getD device.aroma_level
    status_codes := match data.statusCodes with
      | some s => some s
      | none => device.status_codes
    door_open := match data.statusCodes with
      | some s => doorOpenUpdate s device.door_open
      | none => device.door_open }

/-- `_apply_telemetry_data(device, data)` of coordinator.py.  `now` is the
`time.monotonic()` reading taken inside the `heatOn` block.  `was_heating`
and the stored heat-on-since timestamp are the pre-update values, exactly as
the source reads them before overwriting. -/
def _apply_telemetry_data (device : HarviaDeviceData) (data : TelemetryDelta)
    (now : ℚ) : HarviaDeviceData :=
  { device with
    current_temp := match data.temperature with
      | some v => some v
      | none => device.current_temp
    humidity := data.humidity.getD device.humidity
    heat_on := data.heatOn.getD device.heat_on
    energy_kwh := match data.heatOn with
      | some _ =>
          if device.heat_on then
            match device._last_heat_on_timestamp with
            | some ts =>
                device.energy_kwh
                  + ((device.heater_power : ℚ) / 1000) * ((now - ts) / 3600)
            | none => device.energy_kwh
          else device.energy_kwh
      | none => device.energy_kwh
    _last_heat_on_timestamp := match data.heatOn with
      | some b => if b then some now else none
      | none => device._last_heat_on_timestamp
    steam_on := data.steamOn.getD device.steam_on
    remaining_time := data.remainingTime.getD device.remaining_time
    target_temp := match data.targetTemp with
      | some v => some v
      | none => device.target_temp
    wifi_rssi := match data.wifiRSSI with
      | some v => some v
      | none => device.wifi_rssi
    timestamp := match data.timestamp with
      | some v => v
      | none => device.timestamp
    ph1_relay_counter := data.ph1RelayCounter.getD device.ph1_relay_counter
    ph2_relay_counter := data.ph2RelayCounter.getD device.ph2_relay_counter
    ph3_relay_counter := data.ph3RelayCounter.getD device.ph3_relay_counter
    ph1_relay_counter_lt :=
      data.ph1RelayCounterLT.getD device.ph1_relay_counter_lt
    ph2_relay_counter_lt :=
      data.ph2RelayCounterLT.getD device.ph2_relay_counter_lt
    ph3_relay_counter_lt :=
      data.ph3RelayCounterLT.getD device.ph3_relay_counter_lt
    steam_on_counter := data.steamOnCounter.getD device.steam_on_counter
    steam_on_counter_lt :=
      data.steamOnCounterLT.getD device.steam_on_counter_lt
    heat_on_counter := data.heatOnCounter.getD device.heat_on_counter
    heat_on_counter_lt :=
      data.heatOnCounterLT.getD device.heat_on_counter_lt }

/-- Lookup in the device dict (`device_id in data.devices` /
`data.devices[device_id]`). -/
def lookupDevice (devices : List (String × HarviaDeviceData)) (id : String) :
    Option HarviaDeviceData :=
  match devices with
  | [] => none
  | (k, v) :: rest => if k = id then some v else lookupDevice rest id

/-- In-place mutation of the record stored under `id`
(`_apply_*_data(self.data.devices[device_id], ...)` mutates the dict
entry). -/
def updateDevice (devices : List (String × HarviaDeviceData)) (id : String)
    (f : HarviaDeviceData → HarviaDeviceData) :
    List (String × HarviaDeviceData) :=
  devices.map fun p => if p.1 = id then (p.1, f p.2) else p

/-- The per-device body of `_async_update_data`:
`device_data = HarviaDeviceData(device_id=device_id);
_apply_state_data(device_data, state);
_apply_telemetry_data(device_data, telemetry)`.
The record is built from the dataclass defaults, never from a previously
stored record. -/
def buildPolledDevice (device_id : String) (state : StateDelta)
    (telemetry : TelemetryDelta) (now : ℚ) : HarviaDeviceData :=
  _apply_telemetry_data
    (_apply_state_data { device_id := device_id } state) telemetry now

/-- `_async_update_data` of coordinator.py (the fallback poll, successful
case).  `tree` is the list of device identifiers from the device tree,
`state`/`telemetry` give each device's REST snapshot, `now` the monotonic
reading during its telemetry application.  The previous coordinator data
`old` is an argument only to make explicit that the method never reads it:
it builds a fresh `HarviaSaunaData` (`data = HarviaSaunaData()`), which the
coordinator framework then substitutes for `old`. -/
def _async_update_data (old : Option HarviaSaunaData) (tree : List String)
    (state : String → StateDelta) (telemetry : String → TelemetryDelta)
    (now : String → ℚ) : HarviaSaunaData :=
  { devices := tree.map fun id =>
      (id, buildPolledDevice id (state id) (telemetry id) (now id))
    available := true }

/-- A decoded websocket push payload (`payload_data` in
`_async_handle_ws_update`): either an `onStateUpdated` envelope whose
`reported` body (when present and non-empty) parses to a state delta, an
`onDataUpdates` item carrying a device id, a telemetry body and an envelope
timestamp, or anything else. -/
inductive WsPush where
  | onStateUpdated (reported : Option StateDelta)
  | onDataUpdates (deviceId : Option String) (body : TelemetryDelta)
      (itemTimestamp : Option String)
  | unrelated
deriving DecidableEq

/-- `_async_handle_ws_update` of coordinator.py, returning the coordinator
data after the handler runs.  `data = none` models `self.data` being unset
(no successful poll yet): the handler returns at once.  A state delta is
applied only when its `deviceId` is truthy (non-empty) and already a key of
the device dict; likewise a telemetry item, whose body gets the envelope's
timestamp written into its `timestamp` key before application. -/
def _async_handle_ws_update (data : Option HarviaSaunaData) (push : WsPush)
    (now : ℚ) : Option HarviaSaunaData :=
  match data with
  | none => none
  | some d =>
    match push with
    | .onStateUpdated reported =>
      match reported with
      | some st =>
        match st.deviceId with
        | some id =>
            if id ≠ "" ∧ (lookupDevice d.devices id).isSome then
              some { d with
                devices := updateDevice d.devices id
                  fun dev => _apply_state_data dev st }
            else some d
        | none => some d
      | none => some d
    | .onDataUpdates deviceId body itemTimestamp =>
      match deviceId with
      | some id =>
          if id ≠ "" ∧ (lookupDevice d.devices id).isSome then
            some { d with
              devices := updateDevice d.devices id
                fun dev => _apply_telemetry_data dev
                  { body with timestamp := some itemTimestamp } now }
          else some d
      | none => some d
    | .unrelated => some d

/-! ## Websocket session model (`websocket.py`, `const.py`) -/

/-- `WS_RECONNECT_INTERVAL` of const.py (seconds). -/
def WS_RECONNECT_INTERVAL : ℚ := 1800

/-- `WS_HEARTBEAT_TIMEOUT` of const.py (seconds). -/
def WS_HEARTBEAT_TIMEOUT : ℚ := 300

/-- `WS_MAX_RECONNECT_DELAY` of const.py (seconds). -/
def WS_MAX_RECONNECT_DELAY : ℚ := 60

/-- A decoded server frame, classified by its `type` field as in the receive
loop of `_async_connect_and_listen`.  For `connection_ack`, `payload` is the
`connectionTimeoutMs` value when the frame carries a truthy payload (the
source then indexes `payload["connectionTimeoutMs"]` unconditionally). -/
inductive WsMessage where
  | ka
  | connection_ack (payload : Option ℚ)
  | dataMsg
  | errorMsg
  | unknown
deriving DecidableEq

/-- The loop-local state of one connection's receive loop in
`_async_connect_and_listen`: the current read timeout (seconds) passed to
each `asyncio.wait_for(websocket.recv(), timeout=timeout)`, and the
accumulated periodic-reconnect timer. -/
structure ListenLoopState where
  timeout : ℚ := WS_HEARTBEAT_TIMEOUT
  reconnect_timer : ℚ := 0
deriving DecidableEq

/-- One iteration of the receive loop on a decoded frame: returns the new
loop state and `true` when the loop continues (`false` = `break`, i.e. the
periodic reconnect fired). -/
def stepMessage (st : ListenLoopState) (m : WsMessage) : ListenLoopState × Bool :=
  match m with
  | .ka =>
      let timer := st.reconnect_timer + st.timeout
      ({ st with reconnect_timer := timer },
        !(WS_RECONNECT_INTERVAL ≤ timer))
  | .connection_ack payload =>
      match payload with
      | some ms => ({ st with timeout := ms / 1000 }, true)
      | none => (st, true)
  | .dataMsg => (st, true)
  | .errorMsg => (st, true)
  | .unknown => (st, true)

/-- Delivery of one frame to the session at index `i` of the supervisor's
fixed list of sessions.  Each `HarviaWebSocket` runs its own
`_async_connect_and_listen` coroutine with its own loop-local `timeout`
variable, so a frame received by one session is processed against that
session's state only. -/
def deliverToSession (sessions : List ListenLoopState) (i : ℕ)
    (m : WsMessage) : List ListenLoopState :=
  match sessions.get? i with
  | some st => sessions.set i (stepMessage st m).1
  | none => sessions

/-- How one `_async_connect_and_listen` attempt inside `async_run` ends:
either an exception before the transport is established (endpoint/token
resolution or `websockets.connect` failing), or the transport is
established — in which case line 172 runs — and the receive loop later ends
for whatever reason (timeout, close, rotation, error), with `events` the
frames and transport events seen meanwhile. -/
inductive CycleOutcome where
  | failBeforeConnect
  | connectedThen (events : List WsMessage)
deriving DecidableEq

/-- Whether any frame of the cycle was a `connection_ack`. -/
def cycleHasAck : CycleOutcome → Bool
  | .failBeforeConnect => false
  | .connectedThen events => events.any fun e =>
      match e with
      | .connection_ack _ => true
      | _ => false

/-- One iteration of the `while self._running` loop of `async_run` (with the
session still running): `_async_connect_and_listen` runs (resetting
`self._reconnect_attempts = 0` as soon as the transport is established),
then the backoff delay `min(2 ** attempts + jitter, WS_MAX_RECONNECT_DELAY)`
is computed and the counter incremented.  Returns the attempt counter after
the cycle and the delay slept before the next attempt. -/
def async_run_cycle (attempts : ℕ) (outcome : CycleOutcome) (jitter : ℚ) :
    ℕ × ℚ :=
  let attemptsAfterListen :=
    match outcome with
    | .failBeforeConnect => attempts
    | .connectedThen _ => 0
  let delay := min ((2 : ℚ) ^ attemptsAfterListen + jitter)
    WS_MAX_RECONNECT_DELAY
  (attemptsAfterListen + 1, delay)


/-! ## Sample values used by witnesses -/

/-- A device that is currently heating, with heat-on-since timestamp 0. -/
def sampleHeatingDevice : HarviaDeviceData :=
  { device_id := "d", heat_on := true, _last_heat_on_timestamp := some 0 }

/-- A telemetry delta carrying only `heatOn: false`. -/
def heatOffDelta : TelemetryDelta := { heatOn := some false }

/-- A telemetry delta carrying only `heatOn: true`. -/
def heatOnDelta : TelemetryDelta := { heatOn := some true }

/-! ## Theorems -/

/-- Claim C1: a telemetry delta carrying a heat-on flag, applied to a device
that was heating with a stored heat-on-since timestamp, adds exactly
`(heater_power / 1000) * ((now - ts) / 3600)` kWh, reading the old flag and
timestamp before they are overwritten; afterwards the timestamp is `now` if
the new flag is heating, else cleared.  With the 10800 W nameplate default,
heat-on at `t = 0` followed by heat-off at `t = 3600` yields exactly
10.8 kWh. -/
theorem C1_energy_accrual (device : HarviaDeviceData) (data : TelemetryDelta)
    (now : ℚ) (b : Bool) (ts : ℚ)
    (hflag : data.heatOn = some b)
    (hprev : device.heat_on = true)
    (hts : device._last_heat_on_timestamp = some ts) :
    ((_apply_telemetry_data device data now).energy_kwh
        = device.energy_kwh
          + ((device.heater_power : ℚ) / 1000) * ((now - ts) / 3600)
      ∧ (_apply_telemetry_data device data now)._last_heat_on_timestamp
        = (if b then some now else none)
      ∧ (_apply_telemetry_data device data now).heat_on = b)
    ∧ (_apply_telemetry_data
        (_apply_telemetry_data { device_id := "d" } heatOnDelta 0)
        heatOffDelta 3600).energy_kwh = (10.8 : ℚ) := by
  constructor
  · simp [_apply_telemetry_data, hflag, hprev, hts]
  · norm_num [_apply_telemetry_data, heatOnDelta, heatOffDelta]

/-- Witness for C1 at a concrete heating device and a heat-off delta at
`now = 3600`. -/
theorem C1_energy_accrual_witness :
    ((_apply_telemetry_data sampleHeatingDevice heatOffDelta 3600).energy_kwh
        = sampleHeatingDevice.energy_kwh
          + ((sampleHeatingDevice.heater_power : ℚ) / 1000)
            * ((3600 - 0) / 3600)
      ∧ (_apply_telemetry_data sampleHeatingDevice heatOffDelta
            3600)._last_heat_on_timestamp
        = (if false then some 3600 else none)
      ∧ (_apply_telemetry_data sampleHeatingDevice heatOffDelta 3600).heat_on
        = false)
    ∧ (_apply_telemetry_data
        (_apply_telemetry_data { device_id := "d" } heatOnDelta 0)
        heatOffDelta 3600).energy_kwh = (10.8 : ℚ) :=
  C1_energy_accrual sampleHeatingDevice heatOffDelta 3600 false 0 rfl rfl rfl

/-- Claim C3: `energy_kwh` never decreases under any telemetry delta (and
state deltas never touch it).  The hypotheses encode the two ambient facts
the program guarantees: the nameplate power is non-negative (it is always
the 10800 default, never written), and the stored heat-on-since value is an
earlier reading of the same monotonic clock. -/
theorem C3_energy_monotone (device : HarviaDeviceData) (sdata : StateDelta)
    (data : TelemetryDelta) (now : ℚ)
    (hpow : 0 ≤ device.heater_power)
    (hclock : ∀ ts, device._last_heat_on_timestamp = some ts → ts ≤ now) :
    device.energy_kwh ≤ (_apply_telemetry_data device data now).energy_kwh
    ∧ (_apply_state_data device sdata).energy_kwh = device.energy_kwh := by
  refine ⟨?_, rfl⟩
  show device.energy_kwh ≤ _
  simp only [_apply_telemetry_data]
  rcases h : data.heatOn with _ | b
  · exact le_refl _
  · rcases hh : device.heat_on with _ | _
    · simp
    · rcases hts : device._last_heat_on_timestamp with _ | ts
      · simp
      · simp only [if_true]
        refine le_add_of_nonneg_right (mul_nonneg ?_ ?_)
        · have : (0 : ℚ) ≤ (device.heater_power : ℚ) := by
            exact_mod_cast hpow
          positivity
        · have hle : ts ≤ now := hclock ts hts
          have : (0 : ℚ) ≤ now - ts := by linarith
          positivity

/-- Witness for C3 at the sample heating device and a heat-off delta at
`now = 1`. -/
theorem C3_energy_monotone_witness :
    sampleHeatingDevice.energy_kwh
      ≤ (_apply_telemetry_data sampleHeatingDevice heatOffDelta 1).energy_kwh
    ∧ (_apply_state_data sampleHeatingDevice
        { statusCodes := some "19" }).energy_kwh
      = sampleHeatingDevice.energy_kwh :=
  C3_energy_monotone sampleHeatingDevice { statusCodes := some "19" }
    heatOffDelta 1 (by norm_num [sampleHeatingDevice])
    (by
      intro ts h
      simp only [sampleHeatingDevice, Option.some.injEq] at h
      simp [← h])

/-- Claim C4 (the true frame part, plus the evaluation showing the bug): no
state delta, telemetry delta or snapshot application ever writes
`heater_power`; a freshly polled record always carries the hard-coded 10800
default, whatever power the user configured — no code path copies
`CONF_HEATER_POWER` into the record. -/
theorem C4_heater_power_never_configured :
    (∀ (device : HarviaDeviceData) (data : StateDelta),
      (_apply_state_data device data).heater_power = device.heater_power)
    ∧ (∀ (device : HarviaDeviceData) (data : TelemetryDelta) (now : ℚ),
      (_apply_telemetry_data device data now).heater_power
        = device.heater_power)
    ∧ (∀ (id : String) (st : StateDelta) (t : TelemetryDelta) (now : ℚ),
      (buildPolledDevice id st t now).heater_power = 10800) :=
  ⟨fun _ _ => rfl, fun _ _ _ => rfl, fun _ _ _ _ => rfl⟩

/-- Claim C10: every push envelope arriving while the coordinator holds no
data yet is discarded whole — the handler returns immediately, leaving the
(absent) data as it was. -/
theorem C10_push_before_first_poll_ignored (push : WsPush) (now : ℚ) :
    _async_handle_ws_update none push now = none := rfl

/-- A decimal-digit character has code point between 48 and 57. -/
theorem char_isDigit_toNat (c : Char) (hd : c.isDigit = true) :
    48 ≤ c.toNat ∧ c.toNat ≤ 57 := by
  simp only [Char.isDigit, Bool.and_eq_true, decide_eq_true_eq] at hd
  obtain ⟨h1, h2⟩ := hd
  have t1 : (48 : UInt32).toNat ≤ (c.val).toNat := h1
  have t2 : (c.val).toNat ≤ (57 : UInt32).toNat := h2
  have e1 : (48 : UInt32).toNat = 48 := rfl
  have e2 : (57 : UInt32).toNat = 57 := rfl
  have e3 : Char.toNat c = (c.val).toNat := rfl
  omega

/-- A character with code point 57 is `'9'`. -/
theorem char_eq_nine (c : Char) (h : c.toNat = 57) : c = '9' := by
  have h2 := Char.ofNat_toNat c
  rw [h] at h2
  exact h2.symm

/-- Claim C5: on a delta carrying a status-code string, the second character
decides `door_open` — a digit sets it to whether that digit is 9, a missing
or non-digit second character leaves it unchanged (the source swallows
IndexError and ValueError).  Concretely, "19" sets it true, "11" sets it
false, a 1-character string leaves it as it was. -/
theorem C5_status_code_door (device : HarviaDeviceData) (data : StateDelta)
    (s : String) (hsc : data.statusCodes = some s) :
    ((∀ c, s.data.get? 1 = some c → c.isDigit = true →
        ((_apply_state_data device data).door_open = true ↔ c = '9'))
      ∧ (s.data.get? 1 = none →
        (_apply_state_data device data).door_open = device.door_open)
      ∧ (∀ c, s.data.get? 1 = some c → c.isDigit = false →
        (_apply_state_data device data).door_open = device.door_open))
    ∧ (_apply_state_data device { statusCodes := some "19" }).door_open = true
    ∧ (_apply_state_data device { statusCodes := some "11" }).door_open = false
    ∧ (_apply_state_data device { statusCodes := some "1" }).door_open
        = device.door_open := by
  have hdoor : (_apply_state_data device data).door_open
      = doorOpenUpdate s device.door_open := by
    simp [_apply_state_data, hsc]
  refine ⟨⟨?_, ?_, ?_⟩, ?_, ?_, ?_⟩
  · intro c hget hd
    rw [hdoor]
    unfold doorOpenUpdate
    rw [hget]
    simp only [hd, if_true]
    obtain ⟨hlo, hhi⟩ := char_isDigit_toNat c hd
    constructor
    · intro h9
      have : c.toNat - Char.toNat '0' = 9 := by
        simpa using h9
      have h57 : c.toNat = 57 := by
        have e : Char.toNat '0' = 48 := rfl
        omega
      exact char_eq_nine c h57
    · intro hc
      subst hc
      rfl
  · intro hget
    rw [hdoor]
    unfold doorOpenUpdate
    rw [hget]
  · intro c hget hd
    rw [hdoor]
    unfold doorOpenUpdate
    rw [hget]
    simp [hd]
  · have h : ∀ b, doorOpenUpdate "19" b = true := by decide
    exact h device.door_open
  · have h : ∀ b, doorOpenUpdate "11" b = false := by decide
    exact h device.door_open
  · have h : ∀ b, doorOpenUpdate "1" b = b := by decide
    exact h device.door_open

/-- Witness for C5 at the all-defaults device and the status string "19",
with the digit clause instantiated at the character '9'. -/
theorem C5_status_code_door_witness :
    ((_apply_state_data { } { statusCodes := some "19" }).door_open = true
      ↔ ('9' : Char) = '9')
    ∧ (_apply_state_data { } { statusCodes := some "19" }).door_open = true
    ∧ (_apply_state_data { } { statusCodes := some "11" }).door_open = false
    ∧ (_apply_state_data { } { statusCodes := some "1" }).door_open
        = ({ } : HarviaDeviceData).door_open :=
  ⟨(C5_status_code_door { } { statusCodes := some "19" } "19" rfl).1.1 '9'
      rfl rfl,
    (C5_status_code_door { } { statusCodes := some "19" } "19" rfl).2.1,
    (C5_status_code_door { } { statusCodes := some "19" } "19" rfl).2.2.1,
    (C5_status_code_door { } { statusCodes := some "19" } "19" rfl).2.2.2⟩

/-- A second parse of the same status string gives the same door flag. -/
theorem doorOpenUpdate_idem (s : String) (b : Bool) :
    doorOpenUpdate s (doorOpenUpdate s b) = doorOpenUpdate s b := by
  unfold doorOpenUpdate
  rcases s.data.get? 1 with _ | c
  · rfl
  · rcases h : c.isDigit <;> simp [h]

/-- Applying the same state delta twice equals applying it once. -/
theorem apply_state_idem (device : HarviaDeviceData) (d : StateDelta) :
    _apply_state_data (_apply_state_data device d) d
      = _apply_state_data device d := by
  obtain ⟨dn, did, act, li, fa, se, tt, trh, hut, ot, de, al, af, tu, ae,
    alv, sc⟩ := d
  ext <;> simp only [_apply_state_data] <;>
    first
      | rfl
      | (cases dn <;> rfl)
      | (cases did <;> rfl)
      | (cases act <;> rfl)
      | (cases li <;> rfl)
      | (cases fa <;> rfl)
      | (cases se <;> rfl)
      | (cases tt <;> rfl)
      | (cases trh <;> rfl)
      | (cases hut <;> rfl)
      | (cases ot <;> rfl)
      | (cases de <;> rfl)
      | (cases al <;> rfl)
      | (cases af <;> rfl)
      | (cases tu <;> rfl)
      | (cases ae <;> rfl)
      | (cases alv <;> rfl)
      | (cases sc <;> (first | rfl | exact doorOpenUpdate_idem _ _))

/-- Applying the same telemetry delta twice equals applying it once, when
the delta carries no `heatOn` key or carries `heatOn: false`. -/
theorem apply_telemetry_idem (device : HarviaDeviceData) (d : TelemetryDelta)
    (n1 n2 : ℚ) (h : d.heatOn = none ∨ d.heatOn = some false) :
    _apply_telemetry_data (_apply_telemetry_data device d n1) d n2
      = _apply_telemetry_data device d n1 := by
  obtain ⟨te, hu, ho, so, rt, tt, wr, tsf, k1, k2, k3, k4, k5, k6, k7, k8,
    k9, k0⟩ := d
  have hh : ho = none ∨ ho = some false := h
  rcases hh with h1 | h1 <;> subst h1 <;>
    (ext <;> simp only [_apply_telemetry_data] <;>
      first
        | rfl
        | (cases te <;> rfl)
        | (cases hu <;> rfl)
        | (cases so <;> rfl)
        | (cases rt <;> rfl)
        | (cases tt <;> rfl)
        | (cases wr <;> rfl)
        | (cases tsf <;> rfl)
        | (cases k1 <;> rfl)
        | (cases k2 <;> rfl)
        | (cases k3 <;> rfl)
        | (cases k4 <;> rfl)
        | (cases k5 <;> rfl)
        | (cases k6 <;> rfl)
        | (cases k7 <;> rfl)
        | (cases k8 <;> rfl)
        | (cases k9 <;> rfl)
        | (cases k0 <;> rfl))

/-- A repeated `heatOn: true` delta accrues the interval between the two
applications. -/
theorem apply_telemetry_heat_true (device : HarviaDeviceData)
    (d : TelemetryDelta) (n1 n2 : ℚ) (h : d.heatOn = some true) :
    (_apply_telemetry_data (_apply_telemetry_data device d n1) d
        n2).energy_kwh
      = (_apply_telemetry_data device d n1).energy_kwh
        + ((device.heater_power : ℚ) / 1000) * ((n2 - n1) / 3600) := by
  simp [_apply_telemetry_data, h]

/-- Claim C6: every state delta is idempotent; a telemetry delta with no
heat-on key, or with `heatOn: false`, is idempotent; a `heatOn: true` delta
is the sole exception, accruing `(heater_power / 1000) * ((n2 - n1) / 3600)`
additional kWh between the two applications. -/
theorem C6_delta_idempotence :
    (∀ (device : HarviaDeviceData) (d : StateDelta),
      _apply_state_data (_apply_state_data device d) d
        = _apply_state_data device d)
    ∧ (∀ (device : HarviaDeviceData) (d : TelemetryDelta) (n1 n2 : ℚ),
      d.heatOn = none →
      _apply_telemetry_data (_apply_telemetry_data device d n1) d n2
        = _apply_telemetry_data device d n1)
    ∧ (∀ (device : HarviaDeviceData) (d : TelemetryDelta) (n1 n2 : ℚ),
      d.heatOn = some false →
      _apply_telemetry_data (_apply_telemetry_data device d n1) d n2
        = _apply_telemetry_data device d n1)
    ∧ (∀ (device : HarviaDeviceData) (d : TelemetryDelta) (n1 n2 : ℚ),
      d.heatOn = some true →
      (_apply_telemetry_data (_apply_telemetry_data device d n1) d
          n2).energy_kwh
        = (_apply_telemetry_data device d n1).energy_kwh
          + ((device.heater_power : ℚ) / 1000) * ((n2 - n1) / 3600)) :=
  ⟨apply_state_idem,
    fun device d n1 n2 h => apply_telemetry_idem device d n1 n2 (Or.inl h),
    fun device d n1 n2 h => apply_telemetry_idem device d n1 n2 (Or.inr h),
    apply_telemetry_heat_true⟩

/-- Witness for C6: concrete double applications — a status-code state
delta, a temperature-only telemetry delta, a heat-off delta, and a heat-on
delta applied at monotonic times 10 and 100. -/
theorem C6_delta_idempotence_witness :
    _apply_state_data (_apply_state_data { } { statusCodes := some "19" })
        { statusCodes := some "19" }
      = _apply_state_data { } { statusCodes := some "19" }
    ∧ _apply_telemetry_data
        (_apply_telemetry_data { } { temperature := some 60 } 10)
        { temperature := some 60 } 100
      = _apply_telemetry_data { } { temperature := some 60 } 10
    ∧ _apply_telemetry_data (_apply_telemetry_data { } heatOffDelta 10)
        heatOffDelta 100
      = _apply_telemetry_data { } heatOffDelta 10
    ∧ (_apply_telemetry_data
        (_apply_telemetry_data sampleHeatingDevice heatOnDelta 10)
        heatOnDelta 100).energy_kwh
      = (_apply_telemetry_data sampleHeatingDevice heatOnDelta 10).energy_kwh
        + ((sampleHeatingDevice.heater_power : ℚ) / 1000)
          * ((100 - 10) / 3600) :=
  ⟨C6_delta_idempotence.1 { } { statusCodes := some "19" },
    C6_delta_idempotence.2.1 { } { temperature := some 60 } 10 100 rfl,
    C6_delta_idempotence.2.2.1 { } heatOffDelta 10 100 rfl,
    C6_delta_idempotence.2.2.2 sampleHeatingDevice heatOnDelta 10 100 rfl⟩

/-- A device record that has accumulated 5 kWh while heating since
monotonic time 7. -/
def staleDevice : HarviaDeviceData :=
  { device_id := "d", energy_kwh := 5, _last_heat_on_timestamp := some 7 }

/-- Lookup in the device dict built by a poll cycle: every device of the
tree maps to its freshly built record. -/
theorem lookupDevice_poll (tree : List String)
    (f : String → HarviaDeviceData) (id : String) (h : id ∈ tree) :
    lookupDevice (tree.map fun i => (i, f i)) id = some (f id) := by
  induction tree with
  | nil => exact absurd h (List.not_mem_nil id)
  | cons a rest ih =>
      rw [List.map_cons]
      show (if a = id then some (f a) else
        lookupDevice (rest.map fun i => (i, f i)) id) = some (f id)
      by_cases ha : a = id
      · subst ha; simp
      · rw [if_neg ha]
        refine ih ?_
        rcases List.mem_cons.mp h with h1 | h1
        · exact absurd h1.symm ha
        · exact h1

/-- Claim C2 counterexample: a device dict holding a record for "d" with
5 kWh accumulated and a stored heat-on-since timestamp; after one fallback
poll that rediscovers "d" with empty snapshots, the stored record is the
freshly built one — energy 0, no timestamp — not the prior record mutated
in place. -/
theorem C2_poll_replaces_counterexample :
    lookupDevice (_async_update_data (some { devices := [("d", staleDevice)] })
        ["d"] (fun _ => { }) (fun _ => { }) (fun _ => 0)).devices "d"
      = some (buildPolledDevice "d" { } { } 0)
    ∧ (buildPolledDevice "d" { } { } 0).energy_kwh = 0
    ∧ (buildPolledDevice "d" { } { } 0)._last_heat_on_timestamp = none
    ∧ (5 : ℚ) ≠ 0 := by
  refine ⟨rfl, rfl, rfl, by norm_num⟩

/-- Claim C2 as amended: a fallback poll builds a brand-new record (from the
dataclass defaults) for every device of the tree, replacing whatever record
existed — the result does not depend on the previous data at all — and the
fields not carried by the snapshot are reset: the polled record's
`energy_kwh` is 0 and its heat-on-since timestamp is `now` or absent
according to the polled `heatOn` value alone. -/
theorem C2_poll_builds_fresh_record (old : Option HarviaSaunaData)
    (tree : List String) (state : String → StateDelta)
    (telemetry : String → TelemetryDelta) (now : String → ℚ) (id : String)
    (h : id ∈ tree) :
    lookupDevice (_async_update_data old tree state telemetry now).devices id
      = some (buildPolledDevice id (state id) (telemetry id) (now id))
    ∧ (buildPolledDevice id (state id) (telemetry id) (now id)).energy_kwh
      = 0 := by
  constructor
  · exact lookupDevice_poll tree _ id h
  · show (_apply_telemetry_data _ _ _).energy_kwh = 0
    rcases hh : (telemetry id).heatOn with _ | b <;>
      simp [_apply_telemetry_data, _apply_state_data, hh]

/-- Witness for C2's amended theorem at a one-device tree and a previous
data set holding 5 kWh for that device. -/
theorem C2_poll_builds_fresh_record_witness :
    lookupDevice (_async_update_data (some { devices := [("d", staleDevice)] })
        ["d"] (fun _ => { }) (fun _ => { }) (fun _ => 0)).devices "d"
      = some (buildPolledDevice "d" { } { } 0)
    ∧ (buildPolledDevice "d" { } { } 0).energy_kwh = 0 :=
  C2_poll_builds_fresh_record (some { devices := [("d", staleDevice)] })
    ["d"] (fun _ => { }) (fun _ => { }) (fun _ => 0) "d" (by simp)

/-- Claim C7 counterexample: with 5 accumulated attempts, a cycle that
establishes the transport but sees no `connection_ack` at all (the
connection drops straight away) still resets the counter: the cycle ends
with counter 1 and sleeps `min(2 ** 0 + jitter, 60)` = 1 second (jitter 0),
not the `min(2 ** 5 + jitter, 60)` = 32 seconds the claim's reset-only-on-ack
rule would give. -/
theorem C7_reset_without_ack_counterexample :
    cycleHasAck (.connectedThen []) = false
    ∧ async_run_cycle 5 (.connectedThen []) 0 = (1, 1)
    ∧ (1 : ℚ) ≠ min ((2 : ℚ) ^ (5 : ℕ) + 0) WS_MAX_RECONNECT_DELAY := by
  refine ⟨rfl, ?_, ?_⟩
  · show (1, min ((2 : ℚ) ^ (0 : ℕ) + 0) WS_MAX_RECONNECT_DELAY) = (1, 1)
    norm_num [WS_MAX_RECONNECT_DELAY]
  · norm_num [WS_MAX_RECONNECT_DELAY, min_def]

/-- Claim C7 as amended: the backoff delay after a cycle with attempt count
N is `min(2 ** N + jitter, WS_MAX_RECONNECT_DELAY)` and the counter is
incremented every ended/failed cycle; the counter is reset to zero on every
successful transport connection (as soon as the websocket is established,
before any `connection_ack`), so in particular the first failure after an
acknowledged connection backs off on the N = 0 curve. -/
theorem C7_backoff_policy (attempts : ℕ) (events : List WsMessage)
    (jitter : ℚ) :
    async_run_cycle attempts .failBeforeConnect jitter
      = (attempts + 1,
          min ((2 : ℚ) ^ attempts + jitter) WS_MAX_RECONNECT_DELAY)
    ∧ async_run_cycle attempts (.connectedThen events) jitter
      = (1, min ((2 : ℚ) ^ (0 : ℕ) + jitter) WS_MAX_RECONNECT_DELAY) :=
  ⟨rfl, rfl⟩

/-- Claim C8: a `connection_ack` whose payload carries `connectionTimeoutMs`
makes the receiving session's read timeout `connectionTimeoutMs / 1000`
seconds (60000 becomes 60), and delivering the frame to one session of the
supervisor's list leaves every other session's loop state untouched. -/
theorem C8_ack_timeout_adoption (sessions : List ListenLoopState) (i : ℕ)
    (st : ListenLoopState) (hi : sessions.get? i = some st) (ms : ℚ) :
    (stepMessage st (.connection_ack (some ms))).1.timeout = ms / 1000
    ∧ (deliverToSession sessions i (.connection_ack (some 60000))).get? i
        = some { st with timeout := 60 }
    ∧ ∀ j, j ≠ i →
        (deliverToSession sessions i (.connection_ack (some 60000))).get? j
          = sessions.get? j := by
  have hlt : i < sessions.length := by
    by_contra hge
    rw [List.get?_eq_getElem?, List.getElem?_eq_none (Nat.le_of_not_lt hge)]
      at hi
    exact Option.noConfusion hi
  refine ⟨rfl, ?_, ?_⟩
  · unfold deliverToSession
    rw [hi]
    have e : (60000 : ℚ) / 1000 = 60 := by norm_num
    rw [List.get?_eq_getElem?]
    simp [List.getElem?_set_self, hlt, stepMessage, e]
  · intro j hj
    unfold deliverToSession
    rw [hi]
    simp [List.get?_eq_getElem?, List.getElem?_set_ne (Ne.symm hj)]

/-- Witness for C8 with the supervisor's four fresh sessions, the ack
delivered to session 1, session 0 checked unchanged. -/
theorem C8_ack_timeout_adoption_witness :
    (stepMessage { } (.connection_ack (some 60000))).1.timeout
      = (60000 : ℚ) / 1000
    ∧ (deliverToSession [{ }, { }, { }, { }] 1
        (.connection_ack (some 60000))).get? 1
        = some { timeout := 60 }
    ∧ (deliverToSession [{ }, { }, { }, { }] 1
        (.connection_ack (some 60000))).get? 0
        = ([{ }, { }, { }, { }] : List ListenLoopState).get? 0 :=
  ⟨(C8_ack_timeout_adoption [{ }, { }, { }, { }] 1 { } rfl 60000).1,
    (C8_ack_timeout_adoption [{ }, { }, { }, { }] 1 { } rfl 60000).2.1,
    (C8_ack_timeout_adoption [{ }, { }, { }, { }] 1 { } rfl 60000).2.2 0
      (by decide)⟩

/-- Claim C9: a push state delta whose device identifier is not a key of the
device dict leaves the coordinator data exactly as it was (no record is
created), while a fallback poll whose device tree contains that identifier
does create its record. -/
theorem C9_unknown_push_dropped (d : HarviaSaunaData) (st : StateDelta)
    (id : String) (now : ℚ)
    (hid : st.deviceId = some id)
    (hunknown : lookupDevice d.devices id = none) :
    _async_handle_ws_update (some d) (.onStateUpdated (some st)) now = some d
    ∧ ∀ (tree : List String) (state : String → StateDelta)
        (telemetry : String → TelemetryDelta) (nowf : String → ℚ),
        id ∈ tree →
        lookupDevice
            (_async_update_data (some d) tree state telemetry nowf).devices id
          = some (buildPolledDevice id (state id) (telemetry id) (nowf id))
    := by
  constructor
  · simp [_async_handle_ws_update, hid, hunknown]
  · intro tree state telemetry nowf hmem
    exact lookupDevice_poll tree _ id hmem

/-- Witness for C9: empty device dict, push for unknown device "x" dropped;
a poll discovering "x" creates its record. -/
theorem C9_unknown_push_dropped_witness :
    _async_handle_ws_update (some { devices := [] })
        (.onStateUpdated (some { deviceId := some "x" })) 0
      = some { devices := [] }
    ∧ lookupDevice (_async_update_data (some { devices := [] }) ["x"]
          (fun _ => { }) (fun _ => { }) (fun _ => 0)).devices "x"
      = some (buildPolledDevice "x" { } { } 0) :=
  ⟨(C9_unknown_push_dropped { devices := [] } { deviceId := some "x" } "x" 0
      rfl rfl).1,
    (C9_unknown_push_dropped { devices := [] } { deviceId := some "x" } "x" 0
      rfl rfl).2 ["x"] (fun _ => { }) (fun _ => { }) (fun _ => 0) (by simp)⟩
